import Mathlib

/-!
Verification of `write_csv_files_to_snowflake.py`: a two-function ETL
utility that reads CSV files into pandas DataFrames, concatenates them and
appends the result to a database table through a SQLAlchemy engine.

The embedding models:
  - a pandas `DataFrame` as a column list plus a row list;
  - the filesystem as a partial map from paths to file contents (lists of
    text lines);
  - the database reachable through the engine as a map from table names to
    row lists;
  - Python control flow explicitly: a function outcome is `Except PyError`,
    and lines printed to standard output are collected in a log list.

`read_csv_file` (lines 5-32 of the source) and `write_csv_to_snowflake`
(lines 34-69) are translated statement by statement.  The pandas library
calls (`pd.read_csv`, `pd.concat`, `DataFrame.to_sql`) are external
collaborators and are modelled from the spec's description of them.
-/

namespace Olist

/-- A pandas DataFrame: ordered column names and ordered rows, each row a
list of cell values positionally matching `cols`. -/
structure DataFrame where
  cols : List String
  rows : List (List String)
deriving DecidableEq

/-- Rows viewed as mappings from column name to value, as the spec's
Tabular Dataset describes them: each row keyed by the columns. -/
def DataFrame.records (df : DataFrame) : List (List (String × String)) :=
  df.rows.map (fun r => df.cols.zip r)

/-- The filesystem: a path either holds a file (its list of text lines) or
does not exist. -/
def FS : Type := String → Option (List String)

/-- The database reachable through the engine: each table name holds a list
of rows. -/
def DBState : Type := String → List (List String)

/-- Error conditions raised by `pd.read_csv` in the source's `except`
clauses (lines 23-30): `FileNotFoundError`, `errors.EmptyDataError`,
`errors.ParserError`, and the catch-all `Exception`. -/
inductive ReadError
  | fileNotFound
  | emptyData
  | parserError
  | other
deriving DecidableEq

/-- Python exceptions that appear in the program's own control flow. -/
inductive PyError
  | unboundLocalError
  | valueError (msg : String)
  | attributeError
  | connectionError
  | otherError
deriving DecidableEq

/-- Splits the characters of one CSV line into comma-separated fields;
`acc` holds the characters of the current field, reversed. -/
def fieldsAux : List Char → List Char → List String
  | [], acc => [String.mk acc.reverse]
  | c :: cs, acc =>
    if c = ',' then String.mk acc.reverse :: fieldsAux cs []
    else fieldsAux cs (c :: acc)

/-- The comma-separated fields of one CSV line. -/
def fields (line : String) : List String :=
  fieldsAux line.data []

/-- Modelled from the spec: `pd.read_csv(csv_file, header = 0)` (line 22).
The file's first line supplies the column names and the remaining lines
supply the rows, values taken verbatim.  A missing path raises
`FileNotFoundError`, a file with no lines raises `EmptyDataError`, and
malformed content (a data line whose field count differs from the
header's) raises `ParserError`. -/
def pd_read_csv (fs : FS) (path : String) : Except ReadError DataFrame :=
  match fs path with
  | none => .error .fileNotFound
  | some [] => .error .emptyData
  | some (h :: rest) =>
    if rest.all (fun l => (fields l).length == (fields h).length)
    then .ok { cols := fields h, rows := rest.map fields }
    else .error .parserError

/-- The message printed by the `except` clause handling each read error
(source lines 23-30). -/
def readErrMsg (path : String) : ReadError → String
  | .fileNotFound => "File " ++ path ++ " not found"
  | .emptyData => "CSV File " ++ path ++ " with empty data or header"
  | .parserError => "Parse Error when reading CSV File " ++ path
  | .other => "Error reading CSV File " ++ path

/-- Source lines 5-32.  Prints the progress line, tries `pd.read_csv`; on
success the result is bound to `csv_file_dataframe` and returned.  Every
failure is caught by one of the four `except` clauses, which print a
message and fall through without binding `csv_file_dataframe`; the
`return csv_file_dataframe` at line 32 then raises `UnboundLocalError`.
The pair holds the printed lines and the Python outcome. -/
def read_csv_file (fs : FS) (csv_file : String) :
    List String × Except PyError DataFrame :=
  match pd_read_csv fs csv_file with
  | .ok df => (["Reading file " ++ csv_file], .ok df)
  | .error e =>
    (["Reading file " ++ csv_file, readErrMsg csv_file e],
     .error .unboundLocalError)

/-- The list comprehension at source line 56:
`[read_csv_file(csv_file) for csv_file in csv_file_paths]`, evaluated left
to right; the first read that raises propagates out of the comprehension. -/
def read_all (fs : FS) : List String → List String × Except PyError (List DataFrame)
  | [] => ([], .ok [])
  | p :: ps =>
    match read_csv_file fs p with
    | (log, .error e) => (log, .error e)
    | (log, .ok df) =>
      match read_all fs ps with
      | (logs, .error e) => (log ++ logs, .error e)
      | (logs, .ok dfs) => (log ++ logs, .ok (df :: dfs))

/-- Modelled from the spec: `pd.concat(data_frames)` (line 57) concatenates
the frames row-wise, in input order; the source assumes identical columns
across all frames (docstring lines 45-47). -/
def pd_concat (dfs : List DataFrame) : DataFrame :=
  { cols := (dfs.headD { cols := [], rows := [] }).cols
    rows := (dfs.map DataFrame.rows).flatten }

/-- Splits a row list into consecutive batches; a batch holds `max 1 n`
rows, so every batch is non-empty and, for a positive batch size `n`,
holds exactly `n` rows (except possibly the last). -/
def toBatches (n : Nat) (l : List (List String)) : List (List (List String)) :=
  match l with
  | [] => []
  | x :: xs =>
    (x :: xs).take (max 1 n) :: toBatches n ((x :: xs).drop (max 1 n))
termination_by l.length
decreasing_by
  simp [List.length_drop]

/-- Modelled from the spec: pandas `DataFrame.to_sql` on the engine with
the `if_exists` mode set to append — the frame's rows are appended to the
named table, sent in batches of `chunksize` rows per round trip; existing
rows are never removed or overwritten. -/
def DataFrame.to_sql (df : DataFrame) (table_name : String) (chunksize : Nat)
    (db : DBState) : DBState :=
  fun t => if t = table_name then db t ++ (toBatches chunksize df.rows).flatten else db t

/-- The write statement at source line 63, abstracted: it receives the
`data_frames` list, the concatenated `full_dataframe`, the table name, the
chunk size and the database, and produces the new database state together
with the Python outcome of the statement. -/
def WriteStep : Type :=
  List DataFrame → DataFrame → String → Nat → DBState → DBState × Except PyError Unit

/-- Source line 63 as written: `data_frames.to_sql(...)`.  `data_frames`
is a Python `list`, not a DataFrame; the attribute lookup of `to_sql` on a
list raises `AttributeError` before the database is touched, so the
database state is unchanged.  The concatenated `full_dataframe` (line 57)
is never used. -/
def data_frames_to_sql : WriteStep :=
  fun _data_frames _full_dataframe _table_name _chunksize db =>
    (db, .error .attributeError)

/-- The message of the `ValueError` raised at source line 54. -/
def emptyListMsg : String := "CSV File Paths list is empty"

/-- The lines printed by the `except` clauses of the write phase (source
lines 64-67): `ConnectionError` is reported specially, any other exception
by the generic handler.  A successful write prints nothing. -/
def writeErrLog : Except PyError Unit → List String
  | .ok _ => []
  | .error .connectionError => ["Unable to connect to database!"]
  | .error _ => ["Error writing CSV Files"]

/-- Source lines 34-69 with the write statement of line 63 abstracted as
`writeStep`: raise `ValueError` on an empty path list (lines 52-54), read
every file (line 56, outside the `try` block — a read failure propagates),
concatenate (line 57), print the progress line (line 59), run the write
statement inside `try`/`except` (lines 60-67) where any failure is only
printed, and return `True` (line 69).  The triple holds the printed lines,
the final database state and the Python outcome. -/
def write_csv_to_snowflake_gen (writeStep : WriteStep) (fs : FS) (db : DBState)
    (table_name : String) (csv_file_paths : List String) (chunksize : Nat) :
    List String × DBState × Except PyError Bool :=
  if csv_file_paths = [] then
    ([], db, .error (.valueError emptyListMsg))
  else
    match read_all fs csv_file_paths with
    | (logs, .error e) => (logs, db, .error e)
    | (logs, .ok data_frames) =>
      let full_dataframe := pd_concat data_frames
      let res := writeStep data_frames full_dataframe table_name chunksize db
      (logs ++ ["Writing files to table " ++ table_name] ++ writeErrLog res.2,
       res.1, .ok true)

/-- Source lines 34-69 as written: the write statement is line 63's
`data_frames.to_sql(...)` on the Python list. -/
def write_csv_to_snowflake (fs : FS) (db : DBState) (table_name : String)
    (csv_file_paths : List String) (chunksize : Nat) :
    List String × DBState × Except PyError Bool :=
  write_csv_to_snowflake_gen data_frames_to_sql fs db table_name csv_file_paths chunksize

/-! Concrete fixtures used to instantiate the theorems below. -/

/-- Header line shared by the sample files. -/
def colsLine : String := "a,b"

/-- A well-formed sample file: header plus one data row. -/
def fileOne : List String := [colsLine, "1,2"]

/-- A second well-formed sample file: header plus one data row. -/
def fileTwo : List String := [colsLine, "3,4"]

def pathOne : String := "f1.csv"

def pathTwo : String := "f2.csv"

/-- A path bound to no file. -/
def pathMissing : String := "missing.csv"

/-- A path bound to a file with no lines. -/
def pathEmpty : String := "empty.csv"

/-- Sample filesystem: two well-formed files, one empty file, every other
path missing. -/
def fsTwo : FS := fun p =>
  if p = pathOne then some fileOne
  else if p = pathTwo then some fileTwo
  else if p = pathEmpty then some []
  else none

/-- A database whose every table is empty. -/
def db0 : DBState := fun _ => []

def tbl : String := "orders"

/-- The frame read from `fileOne`. -/
def dfOne : DataFrame := { cols := ["a", "b"], rows := [["1", "2"]] }

/-- The frame read from `fileTwo`. -/
def dfTwo : DataFrame := { cols := ["a", "b"], rows := [["3", "4"]] }

/-- A write step that raises `ConnectionError` and leaves the database
unchanged: the connection-failure scenario of the spec. -/
def failingConnection : WriteStep :=
  fun _ _ _ _ db => (db, .error .connectionError)

/-! Helper lemmas. -/

/-- Flattening the batches recovers the original row list, whatever the
batch size. -/
theorem toBatches_flatten (n : Nat) :
    (l : List (List String)) → (toBatches n l).flatten = l
  | [] => by simp [toBatches]
  | x :: xs => by
    simp only [toBatches]
    rw [List.flatten_cons, toBatches_flatten n ((x :: xs).drop (max 1 n)),
      List.take_append_drop]
termination_by l => l.length
decreasing_by simp [List.length_drop]

/-- When every path reads successfully, the comprehension of line 56
returns a list of frames. -/
theorem read_all_ok (fs : FS) (paths : List String)
    (h : ∀ p ∈ paths, ∃ df, pd_read_csv fs p = .ok df) :
    ∃ logs dfs, read_all fs paths = (logs, .ok dfs) := by
  induction paths with
  | nil => exact ⟨[], [], rfl⟩
  | cons p ps ih =>
    obtain ⟨df, hdf⟩ := h p (by simp)
    obtain ⟨logs, dfs, hrec⟩ := ih (fun q hq => h q (by simp [hq]))
    exact ⟨("Reading file " ++ p) :: logs, df :: dfs,
      by simp [read_all, read_csv_file, hdf, hrec]⟩

/-- When some path in the list fails to read, the comprehension of line 56
raises `UnboundLocalError` (the error every failing `read_csv_file` call
surfaces as). -/
theorem read_all_error_of_mem (fs : FS) (paths : List String) (p : String)
    (hp : p ∈ paths) (he : ∃ e, pd_read_csv fs p = .error e) :
    ∃ logs, read_all fs paths = (logs, .error PyError.unboundLocalError) := by
  induction paths with
  | nil => cases hp
  | cons q ps ih =>
    by_cases hq : ∃ df, pd_read_csv fs q = .ok df
    · obtain ⟨df, hdf⟩ := hq
      have hpps : p ∈ ps := by
        rcases List.mem_cons.mp hp with h | h
        · obtain ⟨e, he⟩ := he
          rw [h, hdf] at he
          cases he
        · exact h
      obtain ⟨logs, hrec⟩ := ih hpps
      exact ⟨("Reading file " ++ q) :: logs,
        by simp [read_all, read_csv_file, hdf, hrec]⟩
    · push_neg at hq
      rcases hE : pd_read_csv fs q with e | df
      · exact ⟨["Reading file " ++ q, readErrMsg q e],
          by simp [read_all, read_csv_file, hE]⟩
      · exact absurd hE (hq df)

/-! The claims. -/

/-- C4: for the empty path collection, `write_csv_to_snowflake` raises the
`ValueError` of line 54 immediately: nothing is printed, no file is read,
and the database is unchanged, whatever the filesystem and database. -/
theorem write_empty_paths_raises_valueerror (fs : FS) (db : DBState)
    (table_name : String) (chunksize : Nat) :
    write_csv_to_snowflake fs db table_name [] chunksize
      = ([], db, .error (.valueError emptyListMsg)) := rfl

/-- C5: whenever the underlying CSV parse fails, `read_csv_file` prints the
message for that error case, swallows the original error, and its attempt
to return `csv_file_dataframe` never yields a usable dataset. -/
theorem read_failure_logged_no_dataset (fs : FS) (p : String) (e : ReadError)
    (h : pd_read_csv fs p = .error e) :
    readErrMsg p e ∈ (read_csv_file fs p).1 ∧
      ∀ df : DataFrame, (read_csv_file fs p).2 ≠ .ok df := by
  simp [read_csv_file, h]

/-- The C5 theorem applied at a missing path on the sample filesystem. -/
theorem read_failure_logged_no_dataset_witness :
    pd_read_csv fsTwo pathMissing = .error .fileNotFound ∧
      (readErrMsg pathMissing .fileNotFound ∈ (read_csv_file fsTwo pathMissing).1 ∧
       ∀ df : DataFrame, (read_csv_file fsTwo pathMissing).2 ≠ .ok df) :=
  ⟨rfl, read_failure_logged_no_dataset fsTwo pathMissing .fileNotFound rfl⟩

/-- C6: every read failure makes `read_csv_file` raise `UnboundLocalError`
at its `return` statement (line 32): the caller sees a raised exception,
never a returned value. -/
theorem read_failure_raises_unboundlocal (fs : FS) (p : String)
    (h : ∃ e, pd_read_csv fs p = .error e) :
    (read_csv_file fs p).2 = .error PyError.unboundLocalError := by
  obtain ⟨e, he⟩ := h
  simp [read_csv_file, he]

/-- The C6 theorem applied at the empty file on the sample filesystem. -/
theorem read_failure_raises_unboundlocal_witness :
    (read_csv_file fsTwo pathEmpty).2 = .error PyError.unboundLocalError :=
  read_failure_raises_unboundlocal fsTwo pathEmpty ⟨.emptyData, rfl⟩

/-- C2: whenever the path list is non-empty and every file reads
successfully, the write phase invokes `to_sql` on the Python list
`data_frames` (line 63); the resulting `AttributeError` is caught by the
generic handler, whose message is printed, so the call returns `True`
while the database — and so the target table — is left unchanged. -/
theorem write_on_list_returns_true_unchanged_db (fs : FS) (db : DBState)
    (table_name : String) (paths : List String) (chunksize : Nat)
    (hne : paths ≠ [])
    (hread : ∀ p ∈ paths, ∃ df, pd_read_csv fs p = .ok df) :
    ∃ logs, write_csv_to_snowflake fs db table_name paths chunksize
        = (logs, db, .ok true) ∧ "Error writing CSV Files" ∈ logs := by
  obtain ⟨logs, dfs, hra⟩ := read_all_ok fs paths hread
  refine ⟨logs ++ ["Writing files to table " ++ table_name]
      ++ ["Error writing CSV Files"], ?_, by simp⟩
  simp [write_csv_to_snowflake, write_csv_to_snowflake_gen, hne, hra,
    data_frames_to_sql, writeErrLog]

/-- The C2 theorem applied to the two sample files. -/
theorem write_on_list_returns_true_unchanged_db_witness :
    ∃ logs, write_csv_to_snowflake fsTwo db0 tbl [pathOne, pathTwo] 1000
        = (logs, db0, .ok true) ∧ "Error writing CSV Files" ∈ logs :=
  write_on_list_returns_true_unchanged_db fsTwo db0 tbl [pathOne, pathTwo] 1000
    (by simp) (by
      intro p hp
      rcases List.mem_cons.mp hp with h | h
      · exact ⟨dfOne, by rw [h]; rfl⟩
      · rw [List.mem_singleton] at h
        exact ⟨dfTwo, by rw [h]; rfl⟩)

/-- C3: the success signal is unconditional.  For every behaviour of the
write statement — success, `ConnectionError`, or any other exception —
once the reads succeed the loader prints exactly the message the `except`
clauses produce for that outcome and returns `True`; in particular the
function as written also returns `True`. -/
theorem write_returns_true_regardless (ws : WriteStep) (fs : FS) (db : DBState)
    (table_name : String) (paths : List String) (chunksize : Nat)
    (hne : paths ≠ [])
    (hread : ∀ p ∈ paths, ∃ df, pd_read_csv fs p = .ok df) :
    (∃ rlogs dfs, read_all fs paths = (rlogs, .ok dfs) ∧
      write_csv_to_snowflake_gen ws fs db table_name paths chunksize
        = (rlogs ++ ["Writing files to table " ++ table_name]
            ++ writeErrLog (ws dfs (pd_concat dfs) table_name chunksize db).2,
           (ws dfs (pd_concat dfs) table_name chunksize db).1, .ok true)) ∧
    (write_csv_to_snowflake fs db table_name paths chunksize).2.2 = .ok true := by
  obtain ⟨rlogs, dfs, hra⟩ := read_all_ok fs paths hread
  constructor
  · exact ⟨rlogs, dfs, hra, by simp [write_csv_to_snowflake_gen, hne, hra]⟩
  · simp [write_csv_to_snowflake, write_csv_to_snowflake_gen, hne, hra]

/-- The C3 theorem applied to a connection-failing write step on one
sample file. -/
theorem write_returns_true_regardless_witness :
    (∃ rlogs dfs, read_all fsTwo [pathOne] = (rlogs, .ok dfs) ∧
      write_csv_to_snowflake_gen failingConnection fsTwo db0 tbl [pathOne] 1000
        = (rlogs ++ ["Writing files to table " ++ tbl]
            ++ writeErrLog
              (failingConnection dfs (pd_concat dfs) tbl 1000 db0).2,
           (failingConnection dfs (pd_concat dfs) tbl 1000 db0).1, .ok true)) ∧
    (write_csv_to_snowflake fsTwo db0 tbl [pathOne] 1000).2.2 = .ok true :=
  write_returns_true_regardless failingConnection fsTwo db0 tbl [pathOne] 1000
    (by simp) (by
      intro p hp
      rw [List.mem_singleton] at hp
      exact ⟨dfOne, by rw [hp]; rfl⟩)

/-- C7: a failing read propagates out of `write_csv_to_snowflake`
uncaught: line 56 sits outside the `try` block, which guards only the
database write, so the loader raises instead of returning `True` and the
database is unchanged. -/
theorem read_failure_propagates_through_loader (fs : FS) (db : DBState)
    (table_name : String) (paths : List String) (chunksize : Nat) (p : String)
    (hp : p ∈ paths) (he : ∃ e, pd_read_csv fs p = .error e) :
    ∃ logs, write_csv_to_snowflake fs db table_name paths chunksize
        = (logs, db, .error PyError.unboundLocalError) := by
  obtain ⟨logs, hra⟩ := read_all_error_of_mem fs paths p hp he
  have hne : paths ≠ [] := by rintro rfl; cases hp
  exact ⟨logs, by simp [write_csv_to_snowflake, write_csv_to_snowflake_gen, hne, hra]⟩

/-- The C7 theorem applied to a list whose second path is missing. -/
theorem read_failure_propagates_through_loader_witness :
    ∃ logs, write_csv_to_snowflake fsTwo db0 tbl [pathOne, pathMissing] 1000
        = (logs, db0, .error PyError.unboundLocalError) :=
  read_failure_propagates_through_loader fsTwo db0 tbl [pathOne, pathMissing]
    1000 pathMissing (by simp) ⟨.fileNotFound, rfl⟩

/-- C8: a well-formed file — a header line plus data lines whose field
counts match the header's — is read into a frame whose columns are the
header's fields, whose rows are exactly the data lines in file order, and
whose every record is keyed by exactly the header's columns. -/
theorem reader_wellformed_file (fs : FS) (p hd : String)
    (rest : List String) (hfile : fs p = some (hd :: rest))
    (hw : ∀ l ∈ rest, (fields l).length = (fields hd).length) :
    ∃ df, read_csv_file fs p = (["Reading file " ++ p], .ok df) ∧
      df.cols = fields hd ∧ df.rows = rest.map fields ∧
      df.rows.length = rest.length ∧
      ∀ r ∈ df.records, r.map Prod.fst = fields hd := by
  have hall : rest.all (fun l => (fields l).length == (fields hd).length) = true := by
    rw [List.all_eq_true]
    intro l hl
    simpa using hw l hl
  have hok : pd_read_csv fs p = .ok { cols := fields hd, rows := rest.map fields } := by
    simp [pd_read_csv, hfile, hall]
  refine ⟨{ cols := fields hd, rows := rest.map fields },
    by simp [read_csv_file, hok], rfl, rfl, by simp, ?_⟩
  intro r hr
  simp only [DataFrame.records, List.mem_map] at hr
  obtain ⟨row, ⟨l, hl, hlrow⟩, hr⟩ := hr
  subst hr
  subst hlrow
  exact List.map_fst_zip _ _ (le_of_eq (hw l hl).symm)

/-- The C8 theorem applied to the first sample file. -/
theorem reader_wellformed_file_witness :
    fsTwo pathOne = some (colsLine :: ["1,2"]) ∧
    ∃ df, read_csv_file fsTwo pathOne = (["Reading file " ++ pathOne], .ok df) ∧
      df.cols = fields colsLine ∧ df.rows = (["1,2"] : List String).map fields ∧
      df.rows.length = (["1,2"] : List String).length ∧
      ∀ r ∈ df.records, r.map Prod.fst = fields colsLine :=
  ⟨rfl, reader_wellformed_file fsTwo pathOne colsLine ["1,2"] rfl (by decide)⟩

/-- C9: the batch size never changes the outcome.  The loader's whole
result is the same for any two positive chunk sizes, and the modelled
`to_sql` append itself produces the same final database for any two
positive chunk sizes, since flattening the batches recovers the rows. -/
theorem batch_size_never_changes_outcome (fs : FS) (db : DBState)
    (table_name : String) (paths : List String) (b1 b2 : Nat)
    (h1 : 0 < b1) (h2 : 0 < b2) :
    write_csv_to_snowflake fs db table_name paths b1
      = write_csv_to_snowflake fs db table_name paths b2 ∧
    ∀ (df : DataFrame) (tn : String) (d : DBState),
      df.to_sql tn b1 d = df.to_sql tn b2 d := by
  refine ⟨rfl, ?_⟩
  intro df tn d
  funext t
  simp [DataFrame.to_sql, toBatches_flatten]

/-- The C9 theorem applied at chunk sizes 1 and 1000. -/
theorem batch_size_never_changes_outcome_witness :
    0 < 1 ∧ 0 < 1000 ∧
    (write_csv_to_snowflake fsTwo db0 tbl [pathOne] 1
        = write_csv_to_snowflake fsTwo db0 tbl [pathOne] 1000 ∧
      ∀ (df : DataFrame) (tn : String) (d : DBState),
        df.to_sql tn 1 d = df.to_sql tn 1000 d) :=
  ⟨by decide, by decide,
    batch_size_never_changes_outcome fsTwo db0 tbl [pathOne] 1 1000
      (by decide) (by decide)⟩

/-- C1 (the bug at line 63): on two well-formed one-row files every read
succeeds and the combined frame holds 2 rows, yet the loader returns
`True` having inserted nothing — `to_sql` is invoked on the list, the
`AttributeError` is swallowed, and the target table stays empty instead
of receiving the 2 rows. -/
theorem loader_appends_zero_rows_bug :
    (read_all fsTwo [pathOne, pathTwo]).2 = .ok [dfOne, dfTwo] ∧
    (pd_concat [dfOne, dfTwo]).rows.length = 2 ∧
    (write_csv_to_snowflake fsTwo db0 tbl [pathOne, pathTwo] 1000).2.1 tbl = [] ∧
    (write_csv_to_snowflake fsTwo db0 tbl [pathOne, pathTwo] 1000).2.2 = .ok true :=
  ⟨rfl, rfl, rfl, rfl⟩

/-- C10 (the same line 63 bug): two successive invocations both report
success and leave the target table exactly as it started — no rows are
appended at all, so repeating the call does not produce the duplicate
rows the append-mode design implies. -/
theorem loader_repeat_appends_nothing_bug :
    (write_csv_to_snowflake fsTwo db0 tbl [pathOne, pathTwo] 1000).2.2 = .ok true ∧
    (write_csv_to_snowflake fsTwo
        (write_csv_to_snowflake fsTwo db0 tbl [pathOne, pathTwo] 1000).2.1
        tbl [pathOne, pathTwo] 1000).2.2 = .ok true ∧
    (write_csv_to_snowflake fsTwo
        (write_csv_to_snowflake fsTwo db0 tbl [pathOne, pathTwo] 1000).2.1
        tbl [pathOne, pathTwo] 1000).2.1 tbl = [] :=
  ⟨rfl, rfl, rfl⟩

end Olist
